import Mathlib

/-!
Verification of the command-construction and result-normalization core of
`salt/modules/git.py` (a wrapper module around the external `git` binary).

The Python source is shallowly embedded: Python scalar values become `PyVal`,
Python exceptions become `PyErr`, the external process-execution collaborator
(`__salt__['cmd.run_all']`, not part of this repository) is a function
parameter `run_all : RunAllCall → InvocationResult`, and every embedded
operation returns, next to its `Except` result, the ordered list of
process executions it performed.

String helpers mirror the Python string methods the source uses
(`split(None, 1)`, `rsplit(None, 1)`, `split('\x00')`, `splitlines()`,
`lstrip`/`rstrip`, `lower`); they are written over `List Char` so that every
definition reduces by `rfl`/`decide`.
-/

/-- Python scalar values as they flow through this module: strings, ints,
booleans and `None`. (Nested lists never reach the modelled code paths.) -/
inductive PyVal where
  | vstr (s : String)
  | vint (n : Int)
  | vbool (b : Bool)
  | vnone
deriving DecidableEq, Repr

/-- A Python value that may be a bare scalar or a list, as accepted by the
parameters `opts` (of `_format_opts`) and `identity` (of `_git_run`). -/
inductive PyOpts where
  | val (v : PyVal)
  | list (xs : List PyVal)
deriving DecidableEq, Repr

/-- Python `isinstance(x, six.string_types)`. -/
def isString : PyVal → Bool
  | PyVal.vstr _ => true
  | _ => false

/-- Python truthiness of a scalar (`bool(x)`). -/
def pyTruthy : PyVal → Bool
  | PyVal.vstr s => s ≠ ""
  | PyVal.vint n => n ≠ 0
  | PyVal.vbool b => b
  | PyVal.vnone => false

/-- Python truthiness of an `opts`/`identity` argument (`if identity:`). -/
def pyOptsTruthy : PyOpts → Bool
  | PyOpts.val v => pyTruthy v
  | PyOpts.list xs => ¬ xs.isEmpty

/-- Python `str(x)` / `'{0}'.format(x)` on a scalar. -/
def pyStr : PyVal → String
  | PyVal.vstr s => s
  | PyVal.vint n => toString n
  | PyVal.vbool true => "True"
  | PyVal.vbool false => "False"
  | PyVal.vnone => "None"

/-- Python `x == "t"` for a scalar `x` and a string literal `t`: equality
holds only between strings (an int, bool or `None` never equals a str). -/
def pyEqStr (v : PyVal) (t : String) : Bool :=
  match v with
  | PyVal.vstr s => s = t
  | _ => false

/-- Python `repr` of one string, modelled for printable-ASCII content:
single quotes unless the text holds a single quote and no double quote,
with backslash, the quote character and \n, \r, \t escaped. -/
def pyReprStr (s : String) : String :=
  let q : Char := if s.data.contains '\'' ∧ ¬ s.data.contains '"' then '"' else '\''
  let esc : Char → String := fun c =>
    if c = '\\' then "\\\\"
    else if c = q then "\\" ++ q.toString
    else if c = '\n' then "\\n"
    else if c = '\r' then "\\r"
    else if c = '\t' then "\\t"
    else c.toString
  q.toString ++ String.join (s.data.map esc) ++ q.toString

/-- Join a list of strings with a separator (Lean-side helper for
`", ".join`). -/
def strJoinSep (sep : String) : List String → String
  | [] => ""
  | [x] => x
  | x :: y :: rest => x ++ sep ++ strJoinSep sep (y :: rest)

/-- Python `str(xs)` on a list of strings: the bracketed, comma-separated
reprs of the elements (this is what `'{0}'.format(command)` interpolates
when `command` is a list). -/
def pyStrList (xs : List String) : String :=
  "[" ++ strJoinSep ", " (xs.map pyReprStr) ++ "]"

/-- The characters Python `str.split(None)` treats as whitespace. -/
def isPySpace (c : Char) : Bool :=
  c = ' ' ∨ c = '\t' ∨ c = '\n' ∨ c = '\r' ∨ c = '\x0b' ∨ c = '\x0c'

/-- Python `s.split(None, 1)`: skip leading whitespace; no token means `[]`;
otherwise the first whitespace-free token and, when anything follows the
next whitespace run, the remainder kept verbatim. -/
def pySplitNone1 (s : String) : List String :=
  let cs := s.data.dropWhile isPySpace
  match cs with
  | [] => []
  | _ =>
    let tok := cs.takeWhile (fun c => ¬ isPySpace c)
    let rest := (cs.dropWhile (fun c => ¬ isPySpace c)).dropWhile isPySpace
    if rest.isEmpty then [⟨tok⟩] else [⟨tok⟩, ⟨rest⟩]

/-- Python `s.rsplit(None, 1)`: the mirror image of `pySplitNone1`. -/
def pyRsplitNone1 (s : String) : List String :=
  let cs := s.data.reverse.dropWhile isPySpace
  match cs with
  | [] => []
  | _ =>
    let tokRev := cs.takeWhile (fun c => ¬ isPySpace c)
    let restRev := (cs.dropWhile (fun c => ¬ isPySpace c)).dropWhile isPySpace
    if restRev.isEmpty then [⟨tokRev.reverse⟩]
    else [⟨restRev.reverse⟩, ⟨tokRev.reverse⟩]

/-- Split a character list at every occurrence of `c`, keeping empty
segments, as Python `s.split(sep)` does. -/
def listSplitOnChar (c : Char) : List Char → List (List Char)
  | [] => [[]]
  | x :: xs =>
    let r := listSplitOnChar c xs
    if x = c then [] :: r
    else
      match r with
      | [] => [[x]]
      | h :: t => (x :: h) :: t

/-- Python `s.split('\x00')`. -/
def pySplitNul (s : String) : List String :=
  (listSplitOnChar '\x00' s.data).map (fun l => ⟨l⟩)

/-- Python `s.splitlines()`, modelled for newline-separated text: the
newline-delimited segments, without a trailing empty segment. -/
def pySplitlines (s : String) : List String :=
  match s.data with
  | [] => []
  | _ =>
    let parts := listSplitOnChar '\n' s.data
    let parts := if parts.getLast? = some [] then parts.dropLast else parts
    parts.map (fun l => ⟨l⟩)

/-- Python `s.lstrip(c)` for a one-character strip set. -/
def pyLstripChar (c : Char) (s : String) : String :=
  ⟨s.data.dropWhile (fun x => x = c)⟩

/-- Python `s.rstrip(c)` for a one-character strip set. -/
def pyRstripChar (c : Char) (s : String) : String :=
  ⟨(s.data.reverse.dropWhile (fun x => x = c)).reverse⟩

/-- ASCII lower-casing of one character. -/
def charLower (c : Char) : Char :=
  if 'A' ≤ c ∧ c ≤ 'Z' then Char.ofNat (c.toNat + 32) else c

/-- Python `s.lower()`, modelled for ASCII text. -/
def pyLower (s : String) : String :=
  ⟨s.data.map charLower⟩

/-- Python `s.startswith('/')`, which is what posix `os.path.isabs` tests.
Modelled from the spec: `os.path.isabs` itself is standard-library code that
is not part of this repository; the spec's Path Validator rejects every
value that is not a string or not an absolute (posix) path. -/
def pyIsAbs : PyVal → Bool
  | PyVal.vstr s =>
    match s.data with
    | '/' :: _ => true
    | _ => false
  | _ => false

deriving instance DecidableEq for Except

/-- The exception classes raised by the embedded code: the module's two salt
error kinds (`SaltInvocationError` — the spec's InvalidArgument — and
`CommandExecutionError` — the spec's ExecutionFailed), plus the Python
runtime errors its slips can raise. -/
inductive PyErr where
  | saltInvocation (msg : String)
  | commandExecution (msg : String)
  | nameError (msg : String)
  | indexError (msg : String)
deriving DecidableEq, Repr

/-- True exactly for the `SaltInvocationError` (InvalidArgument) kind. -/
def isInvocationErr : PyErr → Bool
  | PyErr.saltInvocation _ => true
  | _ => false

/-- Constructor tag of an error, used to compare error kinds. -/
def errKind : PyErr → Nat
  | PyErr.saltInvocation _ => 0
  | PyErr.commandExecution _ => 1
  | PyErr.nameError _ => 2
  | PyErr.indexError _ => 3

/-- The dictionary `__salt__['cmd.run_all']` returns: exit code, standard
output and standard error of one external-process execution. -/
structure InvocationResult where
  retcode : Int
  stdout : String
  stderr : String
deriving DecidableEq, Repr

/-- One call to the process-execution collaborator `cmd.run_all`, as
`_git_run` issues it (`python_shell=False` always; `env` is the extra
environment overlay). -/
structure RunAllCall where
  command : List String
  cwd : PyVal
  runas : Option String
  env : List (String × String)
  ignore_retcode : Bool
deriving DecidableEq, Repr

/-- The process-execution collaborator (`__salt__['cmd.run_all']`), which is
not part of this repository: an oracle from a call to its result. -/
def RunAll : Type := RunAllCall → InvocationResult

/-- `_git_run` (git.py lines 26-100): execute `command`, classifying the
outcome.  Returns the result (or the raised exception) together with the
ordered list of process executions performed.

With a truthy `identity`, the source (lines 47-82) iterates over the
identity files; each iteration's first expression is `utils.is_windows()`
(line 54).  The module imports `salt.utils` — which binds the name `salt` —
and never binds `utils`, so that lookup raises
`NameError: name 'utils' is not defined` on the first iteration, before any
wrapper file is created and before any process is executed.  The rest of the
loop body (wrapper materialisation, `cmd.run_all`, the `finally` cleanup,
the retcode dispatch and the stderr accumulation of lines 55-82) is
unreachable.

With a falsy `identity` (None or an empty list), the source (lines 84-100)
executes once with an empty environment overlay: retcode 0 returns the
result unchanged, a nonzero retcode raises `CommandExecutionError` whose
message interpolates `command` with `'{0}'.format(command)` — the Python
string representation of the list — and appends `: <stderr>` when stderr is
non-empty. -/
def _git_run (run_all : RunAll) (command : List String) (cwd : PyVal)
    (runas : Option String) (identity : PyOpts) (ignore_retcode : Bool) :
    Except PyErr InvocationResult × List RunAllCall :=
  if pyOptsTruthy identity then
    (Except.error (PyErr.nameError "name 'utils' is not defined"), [])
  else
    let call : RunAllCall :=
      { command := command, cwd := cwd, runas := runas, env := [],
        ignore_retcode := ignore_retcode }
    let result := run_all call
    if result.retcode = 0 then
      (Except.ok result, [call])
    else
      let msg := "Command '" ++ pyStrList command ++ "' failed"
      let msg := if result.stderr = "" then msg else msg ++ ": " ++ result.stderr
      (Except.error (PyErr.commandExecution msg), [call])

/-- `_check_abs` (git.py lines 103-111): raise `SaltInvocationError` naming
the first value that is not a string or not an absolute path. -/
def _check_abs : List PyVal → Except PyErr Unit
  | [] => Except.ok ()
  | p :: rest =>
    if isString p ∧ pyIsAbs p then _check_abs rest
    else Except.error (PyErr.saltInvocation
      ("Path '" ++ pyStr p ++ "' is not absolute"))

/-- State of the shell-word splitter: tokens finished so far, the token in
progress (kept distinct from "no token", so quotes can open empty tokens),
quoting mode (0 none, 1 single, 2 double) and a pending backslash. -/
structure ShlexState where
  toks : List String
  cur : Option String
  mode : Nat
  esc : Bool

/-- One character step of the shell-word splitter. -/
def shlexStep (st : ShlexState) (c : Char) : ShlexState :=
  if st.mode = 1 then
    if c = '\'' then { st with mode := 0 }
    else { st with cur := some ((st.cur.getD "").push c) }
  else if st.mode = 2 then
    if st.esc then
      if c = '"' ∨ c = '\\' then
        { st with cur := some ((st.cur.getD "").push c), esc := false }
      else
        { st with cur := some (((st.cur.getD "").push '\\').push c), esc := false }
    else if c = '\\' then { st with esc := true }
    else if c = '"' then { st with mode := 0 }
    else { st with cur := some ((st.cur.getD "").push c) }
  else
    if st.esc then { st with cur := some ((st.cur.getD "").push c), esc := false }
    else if c = '\\' then { st with esc := true, cur := some (st.cur.getD "") }
    else if c = '\'' then { st with mode := 1, cur := some (st.cur.getD "") }
    else if c = '"' then { st with mode := 2, cur := some (st.cur.getD "") }
    else if isPySpace c then
      match st.cur with
      | some t => { st with toks := st.toks ++ [t], cur := none }
      | none => st
    else { st with cur := some ((st.cur.getD "").push c) }

/-- Modelled from the spec: `shlex.split` — standard-library code that is
not part of this repository — splits a string "using shell-word-splitting
rules (quoting and whitespace honored)".  A POSIX-style state machine over
whitespace, single/double quotes and backslash escapes. -/
def shlexSplit (s : String) : List String :=
  let fin := s.data.foldl shlexStep ⟨[], none, 0, false⟩
  match fin.cur with
  | some t => fin.toks ++ [t]
  | none => fin.toks

/-- `_format_opts` (git.py lines 114-133): normalise the `opts` argument
into an argument-vector fragment.

`None` gives `[]`.  For a list, `any(x for x in opts if not
isinstance(x, six.string_types))` tests the truthiness of the non-string
elements, so every element is stringified exactly when some non-string
element is truthy; otherwise `opts[-1]` is inspected — an IndexError on the
empty list — and a trailing `'--'` element is dropped.  A non-list,
non-`None` value is shell-split when it is a string and wrapped as its
`str` form otherwise. -/
def _format_opts (opts : PyOpts) : Except PyErr (List PyVal) :=
  match opts with
  | PyOpts.val PyVal.vnone => Except.ok []
  | PyOpts.list xs =>
    if xs.any (fun x => ¬ isString x ∧ pyTruthy x) then
      Except.ok (xs.map (fun x => PyVal.vstr (pyStr x)))
    else
      match xs.getLast? with
      | none => Except.error (PyErr.indexError "list index out of range")
      | some lastv =>
        if pyEqStr lastv "--" then Except.ok xs.dropLast else Except.ok xs
  | PyOpts.val (PyVal.vstr s) => Except.ok ((shlexSplit s).map PyVal.vstr)
  | PyOpts.val v => Except.ok [PyVal.vstr (pyStr v)]

/-- The result of `urlparse`: scheme, authority (netloc), path, query and
fragment.  (Python's 6-tuple additionally separates `params` from the path;
nothing in this module produces or consumes it, so it is omitted.) -/
structure UrlTuple where
  scheme : String
  netloc : String
  path : String
  query : String
  fragment : String
deriving DecidableEq, Repr

/-- Character allowed in a URL scheme after the first letter. -/
def isSchemeChar (c : Char) : Bool :=
  ('a' ≤ c ∧ c ≤ 'z') ∨ ('A' ≤ c ∧ c ≤ 'Z') ∨ ('0' ≤ c ∧ c ≤ '9') ∨
    c = '+' ∨ c = '-' ∨ c = '.'

/-- Split a character list at the first occurrence of `c`, or `none`. -/
def splitOnceChar (c : Char) : List Char → Option (List Char × List Char)
  | [] => none
  | x :: xs =>
    if x = c then some ([], xs)
    else
      match splitOnceChar c xs with
      | none => none
      | some (a, b) => some (x :: a, b)

/-- Modelled from the spec: `urlparse` — standard-library code that is not
part of this repository — parses a URL into scheme, authority, path, query
and fragment.  The fragment is split off at the first `#`, the query at the
first `?`; a leading `letter(scheme chars)*:` prefix is the scheme
(lower-cased); after `//` the authority runs up to the next `/`. -/
def urlparse (url : String) : UrlTuple :=
  let (beforeFrag, fragment) :=
    match splitOnceChar '#' url.data with
    | none => (url.data, [])
    | some (a, b) => (a, b)
  let (beforeQuery, query) :=
    match splitOnceChar '?' beforeFrag with
    | none => (beforeFrag, [])
    | some (a, b) => (a, b)
  let (scheme, rest) :=
    match splitOnceChar ':' beforeQuery with
    | none => (([] : List Char), beforeQuery)
    | some (a, b) =>
      match a with
      | [] => ([], beforeQuery)
      | c0 :: cs =>
        if (('a' ≤ c0 ∧ c0 ≤ 'z') ∨ ('A' ≤ c0 ∧ c0 ≤ 'Z')) ∧ cs.all isSchemeChar
        then (a, b) else ([], beforeQuery)
  let (netloc, path) :=
    match rest with
    | '/' :: '/' :: after =>
      (after.takeWhile (fun c => ¬ c = '/'), after.dropWhile (fun c => ¬ c = '/'))
    | _ => ([], rest)
  { scheme := pyLower ⟨scheme⟩, netloc := ⟨netloc⟩, path := ⟨path⟩,
    query := ⟨query⟩, fragment := ⟨fragment⟩ }

/-- Modelled from the spec: `urlunparse` reassembles the tuple: `scheme:`
prefix when a scheme is present, `//netloc` when an authority is present
(with a `/` inserted before a non-empty relative path), then `?query` and
`#fragment` when non-empty. -/
def urlunparse (t : UrlTuple) : String :=
  let p :=
    if t.netloc ≠ "" ∧ t.path ≠ "" ∧ ¬ t.path.data.head? = some '/'
    then "/" ++ t.path else t.path
  let u :=
    if t.netloc ≠ "" ∨ t.path.data.take 2 = ['/', '/']
    then "//" ++ t.netloc ++ p else p
  let u := if t.scheme ≠ "" then t.scheme ++ ":" ++ u else u
  let u := if t.query ≠ "" then u ++ "?" ++ t.query else u
  if t.fragment ≠ "" then u ++ "#" ++ t.fragment else u

/-- `'{0}'.format(x)` on an optional credential: `None` prints as `"None"`. -/
def optFormat : Option String → String
  | Option.none => "None"
  | some s => s

/-- `_add_http_basic_auth` (git.py lines 136-150): with both credentials
absent return the URL unchanged; otherwise parse it, and for the `https`
scheme rewrite the authority to `<user>:<password>@<original-authority>`
and reassemble, while any other scheme raises `SaltInvocationError`. -/
def _add_http_basic_auth (url : String) (https_user https_pass : Option String) :
    Except PyErr String :=
  match https_user, https_pass with
  | Option.none, Option.none => Except.ok url
  | _, _ =>
    let urltuple := urlparse url
    if urltuple.scheme = "https" then
      let netloc := optFormat https_user ++ ":" ++ optFormat https_pass ++ "@" ++
        urltuple.netloc
      Except.ok (urlunparse { urltuple with netloc := netloc })
    else
      Except.error (PyErr.saltInvocation "Basic Auth only supported for HTTPS")

/-- The fixed state-code table of `status` (git.py lines 1053-1058), read
through `state_map.get(state, state)`: unmapped codes pass through. -/
def stateMapGet (s : String) : String :=
  if s = "M" then "modified"
  else if s = "A" then "new"
  else if s = "D" then "deleted"
  else if s = "??" then "untracked"
  else s

/-- `ret.setdefault(key, []).append(v)` on a dict from state label to the
list of file paths, insertion-ordered as a Python loop builds it. -/
def dictAppend (ret : List (String × List String)) (key : String) (v : String) :
    List (String × List String) :=
  if ret.any (fun kv => kv.1 == key) then
    ret.map (fun kv => if kv.1 == key then (kv.1, kv.2 ++ [v]) else kv)
  else ret ++ [(key, [v])]

/-- The parsing loop of `status` (git.py lines 1065-1070): split the
porcelain output on NUL, split each segment on the first whitespace run
into a state code and a file path (segments that do not split in two are
skipped), map the state code through the table and append the path. -/
def statusParse (output : String) : List (String × List String) :=
  (pySplitNul output).foldl
    (fun ret line =>
      match pySplitNone1 line with
      | [state, filename] => dictAppend ret (stateMapGet state) filename
      | _ => ret)
    []

/-- `status` (git.py lines 1025-1071): validate the path, run
`git status -z --porcelain` through `_git_run` and parse its stdout. -/
def status (run_all : RunAll) (cwd : PyVal) (user : Option String)
    (ignore_retcode : Bool) :
    Except PyErr (List (String × List String)) × List RunAllCall :=
  match _check_abs [cwd] with
  | Except.error e => (Except.error e, [])
  | Except.ok _ =>
    let command := ["git", "status", "-z", "--porcelain"]
    match _git_run run_all command cwd user (PyOpts.val PyVal.vnone)
        ignore_retcode with
    | (Except.error e, tr) => (Except.error e, tr)
    | (Except.ok result, tr) => (Except.ok (statusParse result.stdout), tr)

/-- `ret.setdefault(remote, {})[action] = url` on the remote map: overwrite
the action entry of an existing remote, insert a new remote at the end. -/
def remoteSet (ret : List (String × List (String × String)))
    (remote action url : String) : List (String × List (String × String)) :=
  let innerSet : List (String × String) → List (String × String) := fun d =>
    if d.any (fun kv => kv.1 == action) then
      d.map (fun kv => if kv.1 == action then (kv.1, url) else kv)
    else d ++ [(action, url)]
  if ret.any (fun kv => kv.1 == remote) then
    ret.map (fun kv => if kv.1 == remote then (kv.1, innerSet kv.2) else kv)
  else ret ++ [(remote, innerSet [])]

/-- The parsing loop of `remotes` (git.py lines 1381-1398).  Each line is
split into remote name and remainder, the remainder right-split into URL and
action token, the action stripped of parentheses and lower-cased; a line
failing either split is skipped.  For an action other than `fetch`/`push`
the source executes `log.warning(...)` (line 1393) — but the module never
binds `log` (it has no logging import), so that lookup raises
`NameError: name 'log' is not defined` instead of skipping the line. -/
def remotesFold (lines : List String)
    (ret : List (String × List (String × String))) :
    Except PyErr (List (String × List (String × String))) :=
  match lines with
  | [] => Except.ok ret
  | remote_line :: rest =>
    match pySplitNone1 remote_line with
    | [remote, remote_info] =>
      match pyRsplitNone1 remote_info with
      | [remote_url, action0] =>
        let action := pyLower (pyRstripChar ')' (pyLstripChar '(' action0))
        if action = "fetch" ∨ action = "push" then
          remotesFold rest (remoteSet ret remote action remote_url)
        else
          Except.error (PyErr.nameError "name 'log' is not defined")
      | _ => remotesFold rest ret
    | _ => remotesFold rest ret

/-- `remotes` (git.py lines 1350-1399): validate the path, run
`git remote --verbose` through `_git_run` and fold the parsing loop over
the output lines. -/
def remotes (run_all : RunAll) (cwd : PyVal) (user : Option String)
    (ignore_retcode : Bool) :
    Except PyErr (List (String × List (String × String))) × List RunAllCall :=
  match _check_abs [cwd] with
  | Except.error e => (Except.error e, [])
  | Except.ok _ =>
    let command := ["git", "remote", "--verbose"]
    match _git_run run_all command cwd user (PyOpts.val PyVal.vnone)
        ignore_retcode with
    | (Except.error e, tr) => (Except.error e, tr)
    | (Except.ok result, tr) =>
      match remotesFold (pySplitlines result.stdout) [] with
      | Except.error e => (Except.error e, tr)
      | Except.ok ret => (Except.ok ret, tr)

/-- `remote_get` (git.py lines 1402-1436): validate the path, list the
remotes, and raise `CommandExecutionError` — the same exception class
`_git_run` uses for a nonzero exit — when the requested remote is absent
(`remote not in all_remotes`); otherwise return its entry. -/
def remote_get (run_all : RunAll) (cwd : PyVal) (remote : String)
    (user : Option String) (ignore_retcode : Bool) :
    Except PyErr (List (String × String)) × List RunAllCall :=
  match _check_abs [cwd] with
  | Except.error e => (Except.error e, [])
  | Except.ok _ =>
    match remotes run_all cwd user ignore_retcode with
    | (Except.error e, tr) => (Except.error e, tr)
    | (Except.ok all_remotes, tr) =>
      match all_remotes.find? (fun kv => kv.1 == remote) with
      | Option.none =>
        (Except.error (PyErr.commandExecution
          ("Remote '" ++ remote ++ "' not present in git checkout located at "
            ++ pyStr cwd)), tr)
      | some kv => (Except.ok kv.2, tr)

/-- `os.path.join(toplevel, '.git')`, modelled from the spec for the posix
separator (`os.path` is standard-library code outside this repository). -/
def pathJoinGit (toplevel : String) : String :=
  if toplevel = "" then ".git"
  else if toplevel.data.getLast? = some '/' then toplevel ++ ".git"
  else toplevel ++ "/.git"

/-- `is_worktree` (git.py lines 2055-2102): validate the path, resolve the
repository's top level via `_get_toplevel` (git.py lines 153-161, a
`git rev-parse --show-toplevel` run through `_git_run`; a
`CommandExecutionError` from it means "not a repository" and gives `False`),
then read the `.git` entry — `fopen` is the file-reading collaborator,
`none` standing for an `IOError` — and decide from its first line whether it
is a `gitdir:` pointer to an absolute path.  The `user` parameter is unused:
the source calls `_get_toplevel(worktree_path)` without passing it. -/
def is_worktree (run_all : RunAll) (fopen : String → Option (List String))
    (worktree_path : String) (user : Option String) :
    Except PyErr Bool × List RunAllCall :=
  match _check_abs [PyVal.vstr worktree_path] with
  | Except.error e => (Except.error e, [])
  | Except.ok _ =>
    match _git_run run_all ["git", "rev-parse", "--show-toplevel"]
        (PyVal.vstr worktree_path) Option.none (PyOpts.val PyVal.vnone) false with
    | (Except.error (PyErr.commandExecution _), tr) => (Except.ok false, tr)
    | (Except.error e, tr) => (Except.error e, tr)
    | (Except.ok result, tr) =>
      let gitdir := pathJoinGit result.stdout
      match fopen gitdir with
      | Option.none => (Except.ok false, tr)
      | some lines =>
        match lines with
        | [] => (Except.ok false, tr)
        | line :: _ =>
          match pySplitNone1 line with
          | [label, path] =>
            if label = "gitdir:" ∧ pyIsAbs (PyVal.vstr path) then
              (Except.ok true, tr)
            else (Except.ok false, tr)
          | _ => (Except.ok false, tr)

/-- `worktree_rm` (git.py lines 2298-2341): before any validation it tests
`os.path.exists(worktree_path)` (`fs_exists`, a filesystem collaborator) and
raises `CommandExecutionError` when the path does not exist; only then does
`is_worktree` — and through it `_check_abs` — run.  On a confirmed worktree
it removes the tree via `salt.utils.rm_rf` (`rm_exc`, modelled from the
spec's recursive-removal collaborator: `none` is success, `some exc` the
caught exception text) and returns `True`. -/
def worktree_rm (run_all : RunAll) (fs_exists : String → Bool)
    (fopen : String → Option (List String)) (rm_exc : Option String)
    (worktree_path : String) (user : Option String) :
    Except PyErr Bool × List RunAllCall :=
  if ¬ fs_exists worktree_path then
    (Except.error (PyErr.commandExecution (worktree_path ++ " does not exist")),
      [])
  else
    match is_worktree run_all fopen worktree_path Option.none with
    | (Except.error e, tr) => (Except.error e, tr)
    | (Except.ok false, tr) =>
      (Except.error (PyErr.commandExecution
        (worktree_path ++ " is not a git worktree")), tr)
    | (Except.ok true, tr) =>
      match rm_exc with
      | some exc =>
        (Except.error (PyErr.commandExecution
          ("Unable to remove " ++ worktree_path ++ ": " ++ exc)), tr)
      | Option.none => (Except.ok true, tr)

example : pySplitNone1 "origin\thttps://x/y.git (fetch)" =
    ["origin", "https://x/y.git (fetch)"] := by decide
example : pyRsplitNone1 "https://x/y.git (fetch)" =
    ["https://x/y.git", "(fetch)"] := by decide
example : pySplitNone1 "M  a b " = ["M", "a b "] := by decide
example : pySplitNone1 "M" = ["M"] := by decide
example : pySplitNone1 "" = [] := by decide
example : pySplitNul "M\x00foo.py\x00" = ["M", "foo.py", ""] := by decide
example : pySplitlines "a\n\nb\n" = ["a", "", "b"] := by decide
example : pyStrList ["git", "status"] = "['git', 'status']" := by decide

example : _format_opts (PyOpts.list [PyVal.vint 5, PyVal.vstr "--"]) =
    Except.ok [PyVal.vstr "5", PyVal.vstr "--"] := by decide
example : _format_opts (PyOpts.list [PyVal.vstr "-a", PyVal.vstr "--"]) =
    Except.ok [PyVal.vstr "-a"] := by decide
example : _format_opts (PyOpts.list []) =
    Except.error (PyErr.indexError "list index out of range") := by decide
example : _format_opts (PyOpts.val (PyVal.vstr "")) = Except.ok [] := by decide
example : _format_opts (PyOpts.val (PyVal.vstr "-a 'b c'")) =
    Except.ok [PyVal.vstr "-a", PyVal.vstr "b c"] := by decide
example : _git_run (fun _ => ⟨1, "", ""⟩) ["git", "status"] PyVal.vnone
    Option.none (PyOpts.val PyVal.vnone) false =
    (Except.error (PyErr.commandExecution "Command '['git', 'status']' failed"),
     [⟨["git", "status"], PyVal.vnone, Option.none, [], false⟩]) := by decide
example : ∀ r : RunAll, _git_run r ["git", "pull"] (PyVal.vstr "/repo")
    Option.none (PyOpts.list [PyVal.vstr "/k1"]) false =
    (Except.error (PyErr.nameError "name 'utils' is not defined"), []) :=
  fun _ => rfl

/-- Helper: a list all of whose elements are strings has no truthy
non-string element, so `_format_opts` does not take its stringify branch. -/
theorem any_truthy_nonstring_eq_false (xs : List PyVal)
    (h : ∀ v ∈ xs, isString v = true) :
    (xs.any fun x => ¬ isString x ∧ pyTruthy x) = false := by
  rw [List.any_eq_false]
  intro x hx
  simp [h x hx]

/-- Helper: `pyEqStr v "--"` decides equality with the separator value. -/
theorem pyEqStr_sep_eq_true_iff (v : PyVal) :
    pyEqStr v "--" = true ↔ v = PyVal.vstr "--" := by
  cases v <;> simp [pyEqStr]

/-- Helper: on a value that is not a string or not absolute, `_check_abs`
raises `SaltInvocationError` naming that value. -/
theorem check_abs_single_error (v : PyVal)
    (h : ¬(isString v = true ∧ pyIsAbs v = true)) :
    _check_abs [v] = Except.error
      (PyErr.saltInvocation ("Path '" ++ pyStr v ++ "' is not absolute")) := by
  simp only [_check_abs]
  rw [if_neg]
  exact fun hc => h ⟨hc.1, hc.2⟩

/-- C1: the claimed exhaustion behaviour (an ExecutionFailed error whose
message joins the attempts' standard errors, e.g. `"e1\n\ne2\n\ne3"`) is
unreachable.  For every process-execution oracle, running `_git_run` with a
three-element Identity Set raises `NameError` — the loop's first expression
is the unbound name `utils` (git.py line 54) — before a single process
execution, so the `CommandExecutionError` of line 82 can never be built. -/
theorem C1_identity_exhaustion_unreachable :
    ∀ run_all : RunAll,
      _git_run run_all ["git", "pull"] (PyVal.vstr "/repo") Option.none
        (PyOpts.list [PyVal.vstr "/id1", PyVal.vstr "/id2", PyVal.vstr "/id3"])
        false =
        (Except.error (PyErr.nameError "name 'utils' is not defined"), []) ∧
      PyErr.nameError "name 'utils' is not defined" ≠
        PyErr.commandExecution "e1\n\ne2\n\ne3" :=
  fun _ => ⟨rfl, by decide⟩

/-- C3: the claimed in-order attempts, early return on the first zero exit
and per-attempt wrapper cleanup are unreachable.  For every
process-execution oracle — in particular one whose third attempt would
succeed — `_git_run` on a three-element Identity Set raises `NameError` via
the unbound name `utils` (git.py line 54) with an empty execution trace: no
attempt runs, so there is no attempt result to return and no wrapper file
is ever created. -/
theorem C3_identity_attempts_unreachable :
    ∀ run_all : RunAll,
      _git_run run_all ["git", "fetch", "origin"] (PyVal.vstr "/repo")
        Option.none
        (PyOpts.list [PyVal.vstr "/i1", PyVal.vstr "/i2", PyVal.vstr "/i3"])
        false =
        (Except.error (PyErr.nameError "name 'utils' is not defined"), []) :=
  fun _ => rfl

/-- C2 (counterexample): the failure message interpolates the Python string
representation of the argument-vector list, not the joined command line —
for `['git', 'status']` with exit code 1 and empty stderr the message is
`Command '['git', 'status']' failed`, which differs from the claimed
`Command 'git status' failed`. -/
theorem C2_message_counterexample :
    (_git_run (fun _ => ⟨1, "", ""⟩) ["git", "status"] PyVal.vnone Option.none
        (PyOpts.val PyVal.vnone) false).1 =
      Except.error
        (PyErr.commandExecution "Command '['git', 'status']' failed") ∧
    "Command '['git', 'status']' failed" ≠ "Command 'git status' failed" :=
  ⟨rfl, by decide⟩

/-- C2 (amended): with no Identity Set the command runs once; exit code 0
returns the Invocation Result unchanged, and a nonzero exit fails with a
`CommandExecutionError` whose message is `Command '<Python string
representation of the argument-vector list>' failed`, followed by
`: <standard error>` exactly when the standard error is non-empty. -/
theorem C2_no_identity_spec (run_all : RunAll) (command : List String)
    (cwd : PyVal) (runas : Option String) (ir : Bool) :
    ((run_all ⟨command, cwd, runas, [], ir⟩).retcode = 0 →
      _git_run run_all command cwd runas (PyOpts.val PyVal.vnone) ir =
        (Except.ok (run_all ⟨command, cwd, runas, [], ir⟩),
         [⟨command, cwd, runas, [], ir⟩])) ∧
    ((run_all ⟨command, cwd, runas, [], ir⟩).retcode ≠ 0 →
      _git_run run_all command cwd runas (PyOpts.val PyVal.vnone) ir =
        (Except.error (PyErr.commandExecution
          ("Command '" ++ pyStrList command ++ "' failed" ++
            (if (run_all ⟨command, cwd, runas, [], ir⟩).stderr = "" then ""
             else ": " ++ (run_all ⟨command, cwd, runas, [], ir⟩).stderr))),
         [⟨command, cwd, runas, [], ir⟩])) := by
  constructor
  · intro h
    simp only [_git_run, pyOptsTruthy, pyTruthy, h]
    rfl
  · intro h
    simp only [_git_run, pyOptsTruthy, pyTruthy]
    rw [if_neg]
    · rw [if_neg h]
      by_cases hs : (run_all ⟨command, cwd, runas, [], ir⟩).stderr = ""
      · simp [hs]
      · simp [hs, ← String.append_assoc]
    · simp

/-- C2 (witness): the amended contract at two concrete oracles — a zero
exit returning the result unchanged, and a nonzero exit with stderr
`"boom"` producing the list-representation message with the colon part. -/
theorem C2_no_identity_spec_witness :
    _git_run (fun _ => ⟨0, "out", ""⟩) ["git", "pull"] (PyVal.vstr "/r")
      Option.none (PyOpts.val PyVal.vnone) false =
      (Except.ok ⟨0, "out", ""⟩,
       [⟨["git", "pull"], PyVal.vstr "/r", Option.none, [], false⟩]) ∧
    _git_run (fun _ => ⟨1, "", "boom"⟩) ["git", "pull"] (PyVal.vstr "/r")
      Option.none (PyOpts.val PyVal.vnone) false =
      (Except.error
        (PyErr.commandExecution "Command '['git', 'pull']' failed: boom"),
       [⟨["git", "pull"], PyVal.vstr "/r", Option.none, [], false⟩]) := by
  constructor
  · exact ((C2_no_identity_spec (fun _ => ⟨0, "out", ""⟩) ["git", "pull"]
      (PyVal.vstr "/r") Option.none false).1 (by decide)).trans (by decide)
  · exact ((C2_no_identity_spec (fun _ => ⟨1, "", "boom"⟩) ["git", "pull"]
      (PyVal.vstr "/r") Option.none false).2 (by decide)).trans (by decide)

/-- C4 (counterexample): the trailing-separator equation fails as stated.
At `[5, '--']` the truthy non-string `5` routes the list into the
stringify branch, so the separator is kept (`['5', '--']`), while the
formatter on `[5]` gives `['5']`; and at `['--']` the left side is `[]`
while the right side — the formatter on the empty list — raises
IndexError. -/
theorem C4_counterexample :
    _format_opts (PyOpts.list [PyVal.vint 5, PyVal.vstr "--"]) =
      Except.ok [PyVal.vstr "5", PyVal.vstr "--"] ∧
    _format_opts (PyOpts.list [PyVal.vint 5]) = Except.ok [PyVal.vstr "5"] ∧
    (Except.ok [PyVal.vstr "5", PyVal.vstr "--"] :
      Except PyErr (List PyVal)) ≠ Except.ok [PyVal.vstr "5"] ∧
    _format_opts (PyOpts.list [PyVal.vstr "--"]) =
      Except.ok ([] : List PyVal) ∧
    _format_opts (PyOpts.list []) =
      Except.error (PyErr.indexError "list index out of range") :=
  ⟨rfl, rfl, by decide, rfl, rfl⟩

/-- C4 (amended): for a non-empty sequence of strings that does not itself
end in the separator, appending the trailing `'--'` is invisible: the
formatter's output on the extended sequence equals its output on the
original sequence, both being the original sequence itself. -/
theorem C4_strip_trailing_separator (xs : List PyVal)
    (hstr : ∀ v ∈ xs, isString v = true) (hne : xs ≠ [])
    (hlast : xs.getLast? ≠ some (PyVal.vstr "--")) :
    _format_opts (PyOpts.list (xs ++ [PyVal.vstr "--"])) =
      _format_opts (PyOpts.list xs) ∧
    _format_opts (PyOpts.list xs) = Except.ok xs := by
  have hstr2 : ∀ v ∈ xs ++ [PyVal.vstr "--"], isString v = true := by
    intro v hv
    rcases List.mem_append.mp hv with h1 | h1
    · exact hstr v h1
    · simp at h1; subst h1; rfl
  have hany1 := any_truthy_nonstring_eq_false _ hstr2
  have hany2 := any_truthy_nonstring_eq_false _ hstr
  obtain ⟨l, hl⟩ : ∃ l, xs.getLast? = some l := by
    cases hx : xs.getLast? with
    | none => exact absurd (List.getLast?_eq_none_iff.mp hx) hne
    | some l => exact ⟨l, rfl⟩
  have hl2 : pyEqStr l "--" = false := by
    cases hpe : pyEqStr l "--" with
    | false => rfl
    | true =>
      exact absurd (hl.trans (congrArg some ((pyEqStr_sep_eq_true_iff l).mp hpe)))
        hlast
  have hrhs : _format_opts (PyOpts.list xs) = Except.ok xs := by
    simp only [_format_opts, hany2, Bool.false_eq_true, if_false, hl, hl2]
  refine ⟨?_, hrhs⟩
  rw [hrhs]
  simp only [_format_opts, hany1, Bool.false_eq_true, if_false,
    List.getLast?_concat, List.dropLast_concat, pyEqStr, decide_True, if_true]

/-- C4 (witness): the amended equation at the concrete sequence
`['-a', '--']`. -/
theorem C4_strip_trailing_separator_witness :
    _format_opts (PyOpts.list [PyVal.vstr "-a", PyVal.vstr "--"]) =
      _format_opts (PyOpts.list [PyVal.vstr "-a"]) ∧
    _format_opts (PyOpts.list [PyVal.vstr "-a"]) =
      Except.ok [PyVal.vstr "-a"] :=
  C4_strip_trailing_separator [PyVal.vstr "-a"] (by decide) (by decide)
    (by decide)

/-- C5: with both credentials absent the URL is returned unchanged; with at
least one credential present, a parsed scheme other than `https` raises
`SaltInvocationError`, and the `https` scheme returns the reassembled URL
whose tuple is the parsed tuple with only the authority replaced by
`<user>:<password>@<original-authority>` — scheme, path, query and
fragment preserved exactly. -/
theorem C5_add_http_basic_auth_spec (url : String)
    (https_user https_pass : Option String) :
    (https_user = Option.none ∧ https_pass = Option.none →
      _add_http_basic_auth url https_user https_pass = Except.ok url) ∧
    (¬(https_user = Option.none ∧ https_pass = Option.none) →
      ((urlparse url).scheme ≠ "https" →
        _add_http_basic_auth url https_user https_pass =
          Except.error
            (PyErr.saltInvocation "Basic Auth only supported for HTTPS")) ∧
      ((urlparse url).scheme = "https" →
        _add_http_basic_auth url https_user https_pass =
          Except.ok (urlunparse { urlparse url with
            netloc := optFormat https_user ++ ":" ++ optFormat https_pass ++
              "@" ++ (urlparse url).netloc }))) := by
  cases https_user with
  | none =>
    cases https_pass with
    | none =>
      exact ⟨fun _ => rfl, fun h => absurd ⟨rfl, rfl⟩ h⟩
    | some p =>
      refine ⟨fun h => absurd h.2 (by simp), fun _ => ⟨fun hs => ?_, fun hs => ?_⟩⟩
      · simp only [_add_http_basic_auth]
        rw [if_neg hs]
      · simp only [_add_http_basic_auth]
        rw [if_pos hs]
  | some u =>
    refine ⟨fun h => absurd h.1 (by simp), fun _ => ⟨fun hs => ?_, fun hs => ?_⟩⟩
    · cases https_pass <;> · simp only [_add_http_basic_auth]; rw [if_neg hs]
    · cases https_pass <;> · simp only [_add_http_basic_auth]; rw [if_pos hs]

/-- C5 (witness): the rewriter at concrete inputs — an https URL with path,
query and fragment; an http and an ssh URL refused; and the both-absent
case returning the URL unchanged. -/
theorem C5_add_http_basic_auth_spec_witness :
    _add_http_basic_auth "https://host/p?q#f" (some "u") (some "pw") =
      Except.ok "https://u:pw@host/p?q#f" ∧
    _add_http_basic_auth "http://host/p" (some "u") Option.none =
      Except.error
        (PyErr.saltInvocation "Basic Auth only supported for HTTPS") ∧
    _add_http_basic_auth "ssh://host/p" Option.none (some "pw") =
      Except.error
        (PyErr.saltInvocation "Basic Auth only supported for HTTPS") ∧
    _add_http_basic_auth "https://host/p" Option.none Option.none =
      Except.ok "https://host/p" := by
  refine ⟨?_, ?_, ?_, ?_⟩
  · exact (((C5_add_http_basic_auth_spec "https://host/p?q#f" (some "u")
      (some "pw")).2 (by simp)).2 (by decide)).trans (by decide)
  · exact ((C5_add_http_basic_auth_spec "http://host/p" (some "u")
      Option.none).2 (by simp)).1 (by decide)
  · exact ((C5_add_http_basic_auth_spec "ssh://host/p" Option.none
      (some "pw")).2 (by simp)).1 (by decide)
  · exact (C5_add_http_basic_auth_spec "https://host/p" Option.none
      Option.none).1 (by decide)

/-- C6 (counterexample): `worktree_rm` accepts the relative target path
`relative/wt`, and on a filesystem where that path does not exist it fails
with a `CommandExecutionError` — not the claimed `SaltInvocationError`
(InvalidArgument) — because the existence test precedes the path
validation. -/
theorem C6_worktree_rm_counterexample :
    worktree_rm (fun _ => ⟨0, "", ""⟩) (fun _ => false) (fun _ => Option.none)
      Option.none "relative/wt" Option.none =
      (Except.error (PyErr.commandExecution "relative/wt does not exist"),
       []) ∧
    isInvocationErr (PyErr.commandExecution "relative/wt does not exist") =
      false :=
  ⟨rfl, rfl⟩

/-- C6 (amended): every embedded operation that validates through
`_check_abs` (status, remotes, remote_get) fails on a non-string or
relative working-directory value with a `SaltInvocationError` naming the
first offending value and with zero process executions; `worktree_rm`
instead tests path existence first, failing with a `CommandExecutionError`
when the relative path does not exist and with the validator's
`SaltInvocationError` when it does — in both cases still with zero process
executions. -/
theorem C6_amended (run_all : RunAll) (cwd : PyVal) (user : Option String)
    (ir : Bool) (remote : String) (fs_exists : String → Bool)
    (fopen : String → Option (List String)) (rm_exc : Option String)
    (p : String)
    (hcwd : ¬(isString cwd = true ∧ pyIsAbs cwd = true))
    (hp : pyIsAbs (PyVal.vstr p) = false) :
    status run_all cwd user ir =
      (Except.error (PyErr.saltInvocation
        ("Path '" ++ pyStr cwd ++ "' is not absolute")), []) ∧
    remotes run_all cwd user ir =
      (Except.error (PyErr.saltInvocation
        ("Path '" ++ pyStr cwd ++ "' is not absolute")), []) ∧
    remote_get run_all cwd remote user ir =
      (Except.error (PyErr.saltInvocation
        ("Path '" ++ pyStr cwd ++ "' is not absolute")), []) ∧
    (fs_exists p = false →
      worktree_rm run_all fs_exists fopen rm_exc p user =
        (Except.error (PyErr.commandExecution (p ++ " does not exist")), [])) ∧
    (fs_exists p = true →
      worktree_rm run_all fs_exists fopen rm_exc p user =
        (Except.error (PyErr.saltInvocation
          ("Path '" ++ p ++ "' is not absolute")), [])) := by
  have hc := check_abs_single_error cwd hcwd
  have hcp : _check_abs [PyVal.vstr p] = Except.error
      (PyErr.saltInvocation ("Path '" ++ p ++ "' is not absolute")) := by
    have := check_abs_single_error (PyVal.vstr p) (fun hand => by
      rw [hp] at hand; exact Bool.false_ne_true hand.2)
    simpa [pyStr] using this
  refine ⟨?_, ?_, ?_, ?_, ?_⟩
  · simp [status, hc]
  · simp [remotes, hc]
  · simp [remote_get, hc]
  · intro hfe
    simp [worktree_rm, hfe]
  · intro hfe
    simp [worktree_rm, hfe, is_worktree, hcp]

/-- C6 (witness): the amended contract at concrete inputs — `status` on the
relative path `rel/path`, `remotes` on the non-string `None`, and
`worktree_rm` on an existing relative path, each with an empty execution
trace. -/
theorem C6_amended_witness :
    status (fun _ => ⟨0, "", ""⟩) (PyVal.vstr "rel/path") Option.none false =
      (Except.error
        (PyErr.saltInvocation "Path 'rel/path' is not absolute"), []) ∧
    remotes (fun _ => ⟨0, "", ""⟩) PyVal.vnone Option.none false =
      (Except.error (PyErr.saltInvocation "Path 'None' is not absolute"),
       []) ∧
    worktree_rm (fun _ => ⟨0, "", ""⟩) (fun _ => true) (fun _ => Option.none)
      Option.none "relative/x" Option.none =
      (Except.error
        (PyErr.saltInvocation "Path 'relative/x' is not absolute"), []) := by
  refine ⟨?_, ?_, ?_⟩
  · exact ((C6_amended (fun _ => ⟨0, "", ""⟩) (PyVal.vstr "rel/path")
      Option.none false "origin" (fun _ => true) (fun _ => Option.none)
      Option.none "relative/x" (by decide) (by decide)).1).trans (by decide)
  · exact ((C6_amended (fun _ => ⟨0, "", ""⟩) PyVal.vnone Option.none false
      "origin" (fun _ => true) (fun _ => Option.none) Option.none "relative/x"
      (by decide) (by decide)).2.1).trans (by decide)
  · exact ((C6_amended (fun _ => ⟨0, "", ""⟩) PyVal.vnone Option.none false
      "origin" (fun _ => true) (fun _ => Option.none) Option.none "relative/x"
      (by decide) (by decide)).2.2.2.2 rfl).trans (by decide)

/-- C7 (counterexample): in the claimed particular input the state codes
and file names sit in separate NUL segments with no whitespace inside any
segment, so every segment fails the two-way split and is skipped: the
parse of `"M\x00foo.py\x00??\x00bar.txt\x00"` is the empty map, not the
claimed `{modified: [foo.py], untracked: [bar.txt]}`. -/
theorem C7_status_scenario_counterexample :
    (status (fun _ => ⟨0, "M\x00foo.py\x00??\x00bar.txt\x00", ""⟩)
        (PyVal.vstr "/repo") Option.none false).1 =
      Except.ok ([] : List (String × List String)) ∧
    ([] : List (String × List String)) ≠
      [("modified", ["foo.py"]), ("untracked", ["bar.txt"])] :=
  ⟨rfl, by decide⟩

/-- C7 (amended): the status parser splits on NUL, splits each segment on
its first whitespace run into state code and path, skips segments that do
not split, maps M/A/D/?? to modified/new/deleted/untracked, passes
unmapped codes (here `R`) through verbatim and preserves input order
within each state; the claimed particular holds for the whitespace-bearing
input `"M foo.py\x00?? bar.txt\x00"`. -/
theorem C7_status_parse_amended :
    status (fun _ => ⟨0, "M foo.py\x00?? bar.txt\x00", ""⟩)
      (PyVal.vstr "/repo") Option.none false =
      (Except.ok [("modified", ["foo.py"]), ("untracked", ["bar.txt"])],
       [⟨["git", "status", "-z", "--porcelain"], PyVal.vstr "/repo",
         Option.none, [], false⟩]) ∧
    stateMapGet "M" = "modified" ∧ stateMapGet "A" = "new" ∧
    stateMapGet "D" = "deleted" ∧ stateMapGet "??" = "untracked" ∧
    stateMapGet "R" = "R" ∧
    statusParse "R  old.py\x00?? a.txt\x00M b.py\x00?? c.txt\x00" =
      [("R", ["old.py"]), ("untracked", ["a.txt", "c.txt"]),
       ("modified", ["b.py"])] :=
  ⟨rfl, rfl, rfl, rfl, rfl, rfl, rfl⟩

/-- C8: the fetch/push scenario parses as claimed, with later lines
overwriting earlier ones for the same remote and action; but a line whose
action is not exactly fetch or push is not skipped with a diagnostic — the
diagnostic call reads the unbound name `log` (the module has no logging
import), so the parse raises `NameError: name 'log' is not defined`. -/
theorem C8_remotes_parse_and_diagnostic :
    remotes (fun _ =>
        ⟨0, "origin\thttps://x/y.git (fetch)\norigin\thttps://x/y.git (push)\n",
         ""⟩) (PyVal.vstr "/repo") Option.none false =
      (Except.ok
        [("origin",
          [("fetch", "https://x/y.git"), ("push", "https://x/y.git")])],
       [⟨["git", "remote", "--verbose"], PyVal.vstr "/repo", Option.none, [],
         false⟩]) ∧
    remotes (fun _ => ⟨0, "origin\thttps://x/y.git (mirror)\n", ""⟩)
      (PyVal.vstr "/repo") Option.none false =
      (Except.error (PyErr.nameError "name 'log' is not defined"),
       [⟨["git", "remote", "--verbose"], PyVal.vstr "/repo", Option.none, [],
         false⟩]) ∧
    remotesFold ["bad-line", "origin https://a (fetch)",
        "origin https://b (fetch)"] [] =
      Except.ok [("origin", [("fetch", "https://b")])] :=
  ⟨rfl, rfl, rfl⟩

/-- C9 (counterexample): with a successful but empty remote listing,
`remote_get` for `origin` fails with a `CommandExecutionError` — the very
same exception kind `_git_run` raises for a nonzero exit — not a distinct
LookupFailed kind. -/
theorem C9_lookup_error_kind_counterexample :
    (remote_get (fun _ => ⟨0, "", ""⟩) (PyVal.vstr "/repo") "origin"
        Option.none false).1 =
      Except.error (PyErr.commandExecution
        "Remote 'origin' not present in git checkout located at /repo") ∧
    (_git_run (fun _ => ⟨1, "", "boom"⟩) ["git", "fetch"] (PyVal.vstr "/repo")
        Option.none (PyOpts.val PyVal.vnone) false).1 =
      Except.error
        (PyErr.commandExecution "Command '['git', 'fetch']' failed: boom") ∧
    errKind (PyErr.commandExecution
        "Remote 'origin' not present in git checkout located at /repo") =
      errKind (PyErr.commandExecution
        "Command '['git', 'fetch']' failed: boom") :=
  ⟨rfl, rfl, rfl⟩

/-- C9 (amended): whenever the underlying listing succeeds (zero exit,
parse succeeding) and holds no entry for the requested remote,
`remote_get` fails with a `CommandExecutionError` — the same class used
for nonzero exits, not a distinct kind — whose message names the remote
and the working directory. -/
theorem C9_amended (run_all : RunAll) (p : String) (remote : String)
    (user : Option String) (ir : Bool)
    (d : List (String × List (String × String)))
    (habs : pyIsAbs (PyVal.vstr p) = true)
    (hrc : (run_all ⟨["git", "remote", "--verbose"], PyVal.vstr p, user, [],
      ir⟩).retcode = 0)
    (hfold : remotesFold (pySplitlines (run_all ⟨["git", "remote", "--verbose"],
      PyVal.vstr p, user, [], ir⟩).stdout) [] = Except.ok d)
    (hmiss : d.find? (fun kv => kv.1 == remote) = Option.none) :
    remote_get run_all (PyVal.vstr p) remote user ir =
      (Except.error (PyErr.commandExecution
        ("Remote '" ++ remote ++ "' not present in git checkout located at "
          ++ p)),
       [⟨["git", "remote", "--verbose"], PyVal.vstr p, user, [], ir⟩]) := by
  have hca : _check_abs [PyVal.vstr p] = Except.ok () := by
    simp [_check_abs, isString, habs]
  simp [remote_get, remotes, hca, _git_run, pyOptsTruthy, pyTruthy, hrc,
    hfold, hmiss, pyStr]

/-- C9 (witness): the amended contract at the concrete empty listing. -/
theorem C9_amended_witness :
    remote_get (fun _ => ⟨0, "", ""⟩) (PyVal.vstr "/repo") "origin"
      Option.none false =
      (Except.error (PyErr.commandExecution
        "Remote 'origin' not present in git checkout located at /repo"),
       [⟨["git", "remote", "--verbose"], PyVal.vstr "/repo", Option.none, [],
         false⟩]) :=
  (C9_amended (fun _ => ⟨0, "", ""⟩) "/repo" "origin" Option.none false []
    (by decide) (by decide) rfl rfl).trans (by decide)

/-- C10 (counterexample): the empty vector is not produced only for the
`None` input — the one-element sequence `['--']` also formats to the empty
vector. -/
theorem C10_empty_vector_counterexample :
    _format_opts (PyOpts.list [PyVal.vstr "--"]) =
      Except.ok ([] : List PyVal) ∧
    PyOpts.list [PyVal.vstr "--"] ≠ PyOpts.val PyVal.vnone :=
  ⟨rfl, by decide⟩

/-- C10 (amended): `_format_opts` is indeed not total over sequences — the
empty sequence raises IndexError from inspecting the last element instead
of returning an empty vector — but the empty vector is produced not only
for `None`: the sequence `['--']` and the empty or whitespace-only string
also produce it. -/
theorem C10_not_total_amended :
    _format_opts (PyOpts.list []) =
      Except.error (PyErr.indexError "list index out of range") ∧
    _format_opts (PyOpts.val PyVal.vnone) = Except.ok [] ∧
    _format_opts (PyOpts.list [PyVal.vstr "--"]) = Except.ok [] ∧
    _format_opts (PyOpts.val (PyVal.vstr "")) = Except.ok [] ∧
    _format_opts (PyOpts.val (PyVal.vstr "  \t ")) = Except.ok [] :=
  ⟨rfl, rfl, rfl, rfl, rfl⟩
